import Mathlib

/-!
Shallow embedding of the @andronics/charities-uk client library core:
the shared HTTP transport with bounded retry (src/utils/http.ts), the
error taxonomy (src/core/errors.ts), the base client (query-string
construction, cache, error classification; src/core/base-client.ts),
and the three regulator clients with their normalization transforms
(src/clients/{ccew,ccni,oscr}).

JavaScript runtime values are modelled as follows: machine numbers that
the code treats as integers are Nat or Int; nullable/optional values are
Option; `x ?? y` is Option fallback; falsy-string guards (`s || null`)
are explicit emptiness tests; thrown errors are Except.
-/

namespace CharitiesUK

/-! ## Query-string construction (BaseClient.buildQueryString) -/

/-- A JavaScript value accepted by `buildQueryString`
(`string | number | boolean | undefined`, plus `null` at runtime). -/
inductive QueryVal
  | undef
  | null
  | str (s : String)
  | num (n : Int)
  | bool (b : Bool)
deriving DecidableEq

/-- JavaScript `String(value)` on a query value. -/
def jsString : QueryVal → String
  | .str s => s
  | .num n => toString n
  | .bool b => if b then "true" else "false"
  | .undef => "undefined"
  | .null => "null"

/-- The guard `value !== undefined && value !== null && value !== ''` in
`BaseClient.buildQueryString`. Note `0` and `false` pass the guard. -/
def keepParam : QueryVal → Bool
  | .undef => false
  | .null => false
  | .str s => decide (s ≠ "")
  | .num _ => true
  | .bool _ => true

/-- UTF-8 bytes of a character, used by form encoding. -/
def utf8Bytes (c : Char) : List Nat :=
  let n := c.toNat
  if n < 128 then [n]
  else if n < 2048 then [192 + n / 64, 128 + n % 64]
  else if n < 65536 then [224 + n / 4096, 128 + (n / 64) % 64, 128 + n % 64]
  else [240 + n / 262144, 128 + (n / 4096) % 64, 128 + (n / 64) % 64, 128 + n % 64]

/-- Uppercase hexadecimal digit. -/
def hexChar (n : Nat) : Char :=
  if n < 10 then Char.ofNat (48 + n) else Char.ofNat (55 + n)

/-- Percent-encoding of one byte. -/
def percentByte (b : Nat) : String :=
  String.mk ['%', hexChar (b / 16), hexChar (b % 16)]

/-- Characters `URLSearchParams` serialization leaves verbatim
(application/x-www-form-urlencoded set). -/
def formSafeChar (c : Char) : Bool :=
  c.isAlphanum || c = '*' || c = '-' || c = '.' || c = '_'

/-- Form encoding of one character: space becomes `+`, safe characters
pass through, everything else is percent-encoded per UTF-8 byte. -/
def formEncodeChar (c : Char) : String :=
  if c = ' ' then "+"
  else if formSafeChar c then String.singleton c
  else String.join ((utf8Bytes c).map percentByte)

/-- Form encoding of a string (key or value), as `URLSearchParams` does. -/
def formEncode (s : String) : String :=
  String.join (s.data.map formEncodeChar)

/-- `BaseClient.buildQueryString`: appends every entry whose value passes
the skip guard to a `URLSearchParams`, in insertion order, and returns the
serialized result led by `?`, or the empty string when nothing was kept. -/
def buildQueryString (params : List (String × QueryVal)) : String :=
  let kept := params.filter (fun p => keepParam p.2)
  let queryString :=
    String.intercalate "&"
      (kept.map (fun p => formEncode p.1 ++ "=" ++ formEncode (jsString p.2)))
  if queryString = "" then "" else "?" ++ queryString

/-! ## Integer parsing and the RateLimitError retry-after field
(src/core/errors.ts) -/

/-- Digits to a natural number. -/
def digitsToNat (ds : List Char) : Nat :=
  ds.foldl (fun acc c => acc * 10 + (c.toNat - 48)) 0

/-- JavaScript `parseInt(s, 10)`: skip leading whitespace, take one
optional sign, then the longest run of decimal digits; `none` models the
`NaN` result when no digit is found. -/
def jsParseInt (s : String) : Option Int :=
  let cs := s.data.dropWhile Char.isWhitespace
  let signAndRest : Int × List Char :=
    match cs with
    | '-' :: rest => (-1, rest)
    | '+' :: rest => (1, rest)
    | _ => (1, cs)
  let ds := signAndRest.2.takeWhile Char.isDigit
  if ds.isEmpty then none
  else some (signAndRest.1 * (digitsToNat ds : Int))

/-- The runtime value of `RateLimitError.retryAfter`: JavaScript
`undefined`, `NaN`, or a finite number. -/
inductive RetryAfterField
  | undef
  | nan
  | val (n : Int)
deriving DecidableEq

/-- The `RateLimitError` constructor body acting on the `Retry-After`
header (`none` models an absent header, i.e. `headers.get` returning
`null`). The source runs
`this.retryAfter = retryAfterHeader ? parseInt(retryAfterHeader, 10) : undefined;`
followed by
`if (this.retryAfter && isNaN(this.retryAfter)) this.retryAfter = undefined;`.
Because `NaN` is falsy, that reset guard can never fire: a present but
non-numeric header leaves the field equal to `NaN`. -/
def rateLimitRetryAfter (header : Option String) : RetryAfterField :=
  match header with
  | none => .undef
  | some h =>
    if h = "" then .undef
    else
      match jsParseInt h with
      | none => .nan
      | some n => .val n

/-! ## Error taxonomy and classification
(src/core/errors.ts, BaseClient.handleErrorResponse) -/

/-- The closed set of semantic error kinds thrown by the request core:
CharityNotFoundError, RateLimitError, AuthenticationError, NetworkError,
ApiError. -/
inductive ClientError
  | notFound
  | rateLimited (retryAfter : RetryAfterField)
  | authFailed (status : Nat)
  | network
  | api (status : Nat)
deriving DecidableEq

/-- `BaseClient.handleErrorResponse`: maps a non-2xx status (plus the
`Retry-After` header for 429) to the error it throws. -/
def handleErrorResponse (status : Nat) (retryAfterHeader : Option String) : ClientError :=
  if status = 401 ∨ status = 403 then .authFailed status
  else if status = 404 then .notFound
  else if status = 429 then .rateLimited (rateLimitRetryAfter retryAfterHeader)
  else .api status

/-! ## Transport retry loop (src/utils/http.ts) -/

/-- Outcome of one `fetch` invocation: a completed exchange with a status
code, or a thrown error, flagged with whether it is connectivity class
(`AbortError` / `TypeError` / a message mentioning fetch). -/
inductive FetchOutcome
  | resp (status : Nat)
  | raise (networkClass : Bool)

/-- Final outcome of `httpRequest`: a returned `HttpResponse` (successful
or not) carrying its status, or a thrown `NetworkError`. -/
inductive HttpResult
  | resp (status : Nat)
  | netError
deriving DecidableEq

/-- `response.ok`: status in the 2xx range. -/
def respOk (status : Nat) : Bool :=
  decide (200 ≤ status ∧ status < 300)

/-- `isRetryable` from src/utils/http.ts: server errors, request timeout,
rate limiting, and the status-0 connectivity marker. -/
def isRetryable (status : Nat) : Bool :=
  decide (500 ≤ status) || decide (status = 408) || decide (status = 429)
    || decide (status = 0)

/-- The attempt loop of `httpRequest`. `attempts` gives the outcome of
each successive `fetch`; `attempt` is the zero-based attempt index and
`fuel` the number of retries still allowed (`maxRetries - attempt`), so
`fuel = 0` means the loop is on its final iteration and the source guard
`attempt < retryConfig.maxRetries` fails. A non-ok retryable response or
a connectivity-class exception consumes fuel and recurses. The second
component counts `fetch` invocations made. -/
def httpLoop (attempts : Nat → FetchOutcome) (attempt : Nat) :
    Nat → HttpResult × Nat
  | 0 =>
    match attempts attempt with
    | .resp status => (.resp status, attempt + 1)
    | .raise _ => (.netError, attempt + 1)
  | fuel + 1 =>
    match attempts attempt with
    | .resp status =>
      if respOk status = false && isRetryable status then
        httpLoop attempts (attempt + 1) fuel
      else (.resp status, attempt + 1)
    | .raise networkClass =>
      if networkClass then httpLoop attempts (attempt + 1) fuel
      else (.netError, attempt + 1)

/-- `httpRequest` with retry budget `maxRetries`: runs the attempt loop
from attempt 0, so at most `1 + maxRetries` invocations happen. -/
def httpRequest (attempts : Nat → FetchOutcome) (maxRetries : Nat) :
    HttpResult × Nat :=
  httpLoop attempts 0 maxRetries

/-! ## Dates and case mapping -/

/-- A JavaScript `Date` built from a response string. The claims settled
here never inspect the time value, so the date keeps the string it was
constructed from. -/
structure JSDate where
  raw : String
deriving DecidableEq

/-- Validity of `new Date(s)` (`!isNaN(date.getTime())`) for the
ISO-style `YYYY-MM-DD...` strings these regulator APIs return. -/
def isoDateValid (s : String) : Bool :=
  match s.data with
  | y1 :: y2 :: y3 :: y4 :: '-' :: m1 :: m2 :: '-' :: d1 :: d2 :: _ =>
    y1.isDigit && y2.isDigit && y3.isDigit && y4.isDigit
      && m1.isDigit && m2.isDigit && d1.isDigit && d2.isDigit
  | _ => false

/-- `parseDate` shared by all three transform modules: `null`, `undefined`
and the empty string give `null`; otherwise `new Date(s)` is kept when it
is a valid date and dropped when it is invalid. -/
def parseDate (dateString : Option String) : Option JSDate :=
  match dateString with
  | none => none
  | some s => if s = "" then none else if isoDateValid s then some ⟨s⟩ else none

/-- JavaScript `s.toUpperCase()` on the ASCII strings handled here. -/
def jsToUpper (s : String) : String :=
  ⟨s.data.map Char.toUpper⟩

/-- JavaScript `s.startsWith(p)`. -/
def jsStartsWith (s p : String) : Bool :=
  p.data.isPrefixOf s.data

/-- Numeric key modelling `new Date(s).getTime()` ordering for the
ISO-style date strings compared in `getLatestAnnualReturnRaw` (the digits
of the leading `YYYY-MM-DD` sorted lexicographically equal chronological
order). -/
def dateSortKey (s : String) : Nat :=
  digitsToNat ((s.data.take 10).filter Char.isDigit)

/-- `x ?? y`: JavaScript nullish coalescing on optional values. -/
def jsNullish (x y : Option α) : Option α :=
  match x with
  | some v => some v
  | none => y

/-- A non-empty string, or `null` (`s || null` on a string). -/
def strOrNull (s : String) : Option String :=
  if s = "" then none else some s

/-- `s || null` where `s` itself may already be null or undefined. -/
def optStrOrNull (s : Option String) : Option String :=
  match s with
  | none => none
  | some v => strOrNull v

/-! ## Normalized data model (src/types/charity.ts, src/types/search.ts) -/

/-- UK charity regulators. -/
inductive Regulator
  | CCEW
  | OSCR
  | CCNI
deriving DecidableEq

/-- Normalized charity status across all regulators. -/
inductive CharityStatus
  | ACTIVE
  | REMOVED
  | IN_DEFAULT
  | LATE
  | RECENTLY_REGISTERED
deriving DecidableEq

/-- CCNI governing document (types/raw/ccni.ts). -/
structure CCNIGoverningDoc where
  url : Option String
  name : String
deriving DecidableEq

/-- CCNI full charity details: the fields of `CCNICharityDetails` that the
CCNI client and transform read. Fields the code guards with `??` or `?.`
are Option. -/
structure CCNIDetails where
  regCharityNumber : Nat
  subCharityNumber : String
  companyNumber : String
  charityName : String
  otherNames : Option (List String)
  status : String
  dateRegistered : Option String
  dateRemoved : Option String
  contactWebsite : String
  contactEmail : String
  contactTel : String
  contactAddress : String
  csvContactAddress : String
  income : Option Int
  totalExpenditure : Option Int
  dateFinancialYearEnd : Option String
  numberEmployees : Option Int
  numberVolunteers : Option Int
  peopleTrustees : Option Int
  classWhat : Option (List String)
  classWho : Option (List String)
  classHow : Option (List String)
  areasOfOperation : Option (List String)
  organisationType : String
  governingDocument : Option CCNIGoverningDoc
  charitableObjects : String
  publicBenefits : String
  activities : String
deriving DecidableEq

/-- CCNI charity summary (search result item): the fields
`transformSummary` reads. -/
structure CCNISummary where
  regNo : String
  subNo : String
  name : String
  orgType : String
deriving DecidableEq

/-- CCNI aggregation bucket. -/
structure CCNIAggBucket where
  key : String
  displayName : String
  count : Nat
deriving DecidableEq

/-- CCNI aggregation group (facet). -/
structure CCNIAggGroup where
  name : String
  buckets : List CCNIAggBucket
deriving DecidableEq

/-- CCNI search response. `onlyShow` is Option because the transform
guards it with `if (raw.onlyShow)`. -/
structure CCNISearchResponse where
  pageNumber : Nat
  pageSize : Nat
  totalPages : Nat
  totalItems : Nat
  pageItems : List CCNISummary
  aggregationGroups : List CCNIAggGroup
  onlyShow : Option CCNIAggGroup
deriving DecidableEq

/-- CCEW alternative name record. -/
structure CCEWOtherName where
  charityOtherName : String
  charityOtherNameType : String
deriving DecidableEq

/-- CCEW who/what classification. -/
structure CCEWWhoWhat where
  whatTheCharityDoes : List String
  howTheCharityWorks : List String
  whoTheCharityHelps : List String
deriving DecidableEq

/-- CCEW areas of operation. -/
structure CCEWAreas where
  localAuthorities : List String
  countries : List String
  regions : List String
deriving DecidableEq

/-- CCEW full charity details: the fields of `CCEWCharityDetails` that
`transformDetails` reads. -/
structure CCEWDetails where
  registeredCharityNumber : Nat
  linkedCharityNumber : Nat
  charityName : String
  charityRegistrationStatus : String
  dateOfRegistration : Option String
  dateOfRemoval : Option String
  charityContactWeb : Option String
  charityContactEmail : Option String
  charityContactPhone : Option String
  charityContactAddress1 : Option String
  charityContactAddress2 : Option String
  charityContactAddress3 : Option String
  charityContactAddress4 : Option String
  charityContactAddress5 : Option String
  charityContactPostcode : Option String
  organisationType : Option String
  charityCompanyRegistrationNumber : Option String
  latestIncome : Option Int
  latestExpenditure : Option Int
  latestFinancialYearEnd : Option String
  numberOfEmployees : Option Int
  numberOfVolunteers : Option Int
  numberOfTrustees : Option Int
  charityWhoWhat : Option CCEWWhoWhat
  charityAreasOfOperation : Option CCEWAreas
  otherNames : Option (List CCEWOtherName)
  charitableObjects : Option String
  governingDocument : Option String
deriving DecidableEq

/-- CCEW charity summary (search result item). -/
structure CCEWSummary where
  registeredCharityNumber : Nat
  linkedCharityNumber : Nat
  charityName : String
  charityType : Option String
  registrationStatus : String
  dateOfRegistration : Option String
  dateOfRemoval : Option String
deriving DecidableEq

/-- CCEW search response. -/
structure CCEWSearchResponse where
  charities : List CCEWSummary
  totalResults : Nat
  pageNumber : Nat
  pageSize : Nat
deriving DecidableEq

/-- OSCR charity record: the fields of `OSCRCharity` the transform and
client read (`id` is the internal UUID, `charityNumber` the SC number). -/
structure OSCRCharity where
  id : String
  charityName : String
  charityNumber : String
  registeredDate : Option String
  knownAs : Option String
  website : Option String
  charityStatus : String
  currentConstitutionalForm : String
  notes : Option String
  geographicalSpread : String
  mainOperatingLocation : String
  purposes : Option (List String)
  beneficiaries : Option (List String)
  typesOfActivities : Option (List String)
  objectives : String
  principalOfficeOrTrusteeAddress : String
  principalContactAddress : Option String
  mostRecentYearIncome : Option Int
  mostRecentYearExpenditure : Option Int
  yearEnd : Option String
deriving DecidableEq

/-- OSCR annual return: the fields read by the transforms and the
enrichment step. The numeric fields are Option because the code guards
them with `??`. -/
structure OSCRAnnualReturn where
  AccountingReferenceDate : String
  GrossIncome : Option Int
  GrossExpenditure : Option Int
  TotalNumberofCharityTrustees : Option Int
  PaidStaff : Option Int
deriving DecidableEq

/-- OSCR all-charities response (`prev`/`next` links are unread). -/
structure OSCRAllCharitiesResp where
  currentPage : Nat
  totalPages : Nat
  data : List OSCRCharity
deriving DecidableEq

/-- The raw payload stored in the normalized record's `_raw` escape
hatch. -/
inductive RawPayload
  | ccniDetails (d : CCNIDetails)
  | ccniSummary (s : CCNISummary)
  | ccewDetails (d : CCEWDetails)
  | ccewSummary (s : CCEWSummary)
  | oscrCharity (c : OSCRCharity)
deriving DecidableEq

/-- The normalized `Charity` record (src/types/charity.ts). `rawData`
models the `_raw` passthrough field. -/
structure Charity where
  id : String
  regulator : Regulator
  registrationNumber : String
  subsidiaryNumber : Option String
  companyNumber : Option String
  name : String
  otherNames : List String
  status : CharityStatus
  registeredDate : Option JSDate
  removedDate : Option JSDate
  website : Option String
  email : Option String
  phone : Option String
  address : Option String
  latestIncome : Option Int
  latestExpenditure : Option Int
  financialYearEnd : Option JSDate
  employeeCount : Option Int
  volunteerCount : Option Int
  trusteeCount : Option Int
  purposes : List String
  beneficiaries : List String
  activities : List String
  areasOfOperation : List String
  organisationType : Option String
  governingDocumentType : Option String
  charitableObjects : Option String
  publicBenefit : Option String
  activityDescription : Option String
  rawData : RawPayload
deriving DecidableEq

/-- Normalized financial-year data. `income`/`expenditure` are Option
because the raw numeric fields can be null at runtime and pass through. -/
structure FinancialYear where
  yearEnd : JSDate
  income : Option Int
  expenditure : Option Int
deriving DecidableEq

/-- Cross-registration info returned by `getOtherRegulators`. -/
structure OtherRegulatorInfo where
  regulator : Regulator
  registrationNumber : String
deriving DecidableEq

/-- Normalized trustee record (src/types/charity.ts). -/
structure Trustee where
  name : String
  isChair : Bool
  otherTrusteeships : Option (List String)
deriving DecidableEq

/-- Normalized aggregation bucket. -/
structure AggregationBucket where
  value : String
  label : String
  count : Nat
deriving DecidableEq

/-- Search aggregations: facet name to buckets, in insertion order. -/
def SearchAggregations := List (String × List AggregationBucket)

instance : DecidableEq SearchAggregations :=
  inferInstanceAs (DecidableEq (List (String × List AggregationBucket)))

/-- Paginated search result over normalized charities. -/
structure SearchResult where
  items : List Charity
  total : Nat
  page : Nat
  pageSize : Nat
  totalPages : Nat
  aggregations : Option SearchAggregations
deriving DecidableEq

/-- `Math.ceil(a / b)` on the non-negative integers handled here, for
`b > 0` (the JavaScript division by zero would give Infinity or NaN,
which this Nat model does not represent; the pagination theorems assume
a positive page size). -/
def jsCeilDiv (a b : Nat) : Nat :=
  (a + b - 1) / b

/-! ## Cache and request core (src/core/base-client.ts) -/

/-- The LRU cache owned by a client: most recently used entry first,
truncated to `maxSize` on insertion. Values are `Charity | null`, so a
cached negative result (`none`) is distinguishable from a cache miss. -/
structure CacheState where
  entries : List (String × Option Charity)
  maxSize : Nat
deriving DecidableEq

/-- `lru-cache` `get`: returns the stored value and refreshes the entry's
recency. -/
def cacheGet (c : CacheState) (key : String) : Option (Option Charity) × CacheState :=
  match c.entries.lookup key with
  | none => (none, c)
  | some v =>
    (some v, { c with entries := (key, v) :: c.entries.filter (fun e => e.1 != key) })

/-- `lru-cache` `set`: inserts or refreshes the entry at the front and
evicts least-recently-used entries beyond the capacity. -/
def cacheSet (c : CacheState) (key : String) (v : Option Charity) : CacheState :=
  { c with entries := ((key, v) :: c.entries.filter (fun e => e.1 != key)).take c.maxSize }

/-- `BaseClient.getCached`: `this.cache?.get(key)` — a disabled cache
(`null`) always misses. -/
def getCached (cache : Option CacheState) (key : String) :
    Option (Option Charity) × Option CacheState :=
  match cache with
  | none => (none, none)
  | some c =>
    let r := cacheGet c key
    (r.1, some r.2)

/-- `BaseClient.setCache`: `this.cache?.set(key, value)` — a no-op when
caching is disabled. -/
def setCache (cache : Option CacheState) (key : String) (v : Option Charity) :
    Option CacheState :=
  cache.map (fun c => cacheSet c key v)

/-- `BaseClient.clearCache`: `this.cache?.clear()`. -/
def clearCacheState (cache : Option CacheState) : Option CacheState :=
  cache.map (fun c => { c with entries := [] })

/-- `BaseClient.getCacheKey` for string parameters:
`regulator:method:params`. -/
def getCacheKey (regulator method params : String) : String :=
  regulator ++ ":" ++ method ++ ":" ++ params

/-- `DEFAULT_CACHE_CONFIG.maxSize`. -/
def defaultMaxSize : Nat := 100

/-- Per-client mutable state threaded through the embedded methods: the
optional cache (`null` when construction disabled caching) and the count
of underlying transport invocations made so far. -/
structure ClientState where
  cache : Option CacheState
  calls : Nat
deriving DecidableEq

/-- A freshly constructed client with default cache configuration:
an empty cache when enabled, `null` when disabled. -/
def initState (cacheEnabled : Bool) : ClientState :=
  { cache := if cacheEnabled then some ⟨[], defaultMaxSize⟩ else none
    calls := 0 }

/-- `BaseClient.logNotImplemented`: the single diagnostic line emitted for
a capability the regulator's API does not offer. -/
def logNotImplemented (regulator method : String) : String :=
  "[" ++ regulator ++ "] " ++ method ++ " is not supported by this regulator\x27s API"

/-- Append an optional filter parameter the way `CCNIClient.search` does
(`if (filters.x) params.x = filters.x`): skipped when absent or empty. -/
def optParam (name : String) (v : Option String) : List (String × QueryVal) :=
  match v with
  | none => []
  | some s => if s = "" then [] else [(name, .str s)]

namespace CCNI

/-- CCNI status dictionary (src/clients/ccni/transform.ts `mapStatus`),
defaulting to ACTIVE for unrecognized strings. -/
def mapStatus (status : String) : CharityStatus :=
  if status = "Up-to-date" then .ACTIVE
  else if status = "Due documents received late" then .LATE
  else if status = "In default" then .IN_DEFAULT
  else if status = "Removed" then .REMOVED
  else if status = "Recently registered" then .RECENTLY_REGISTERED
  else .ACTIVE

/-- `transformDetails` (src/clients/ccni/transform.ts). -/
def transformDetails (raw : CCNIDetails) : Charity :=
  { id := "NIC" ++ toString raw.regCharityNumber
    regulator := .CCNI
    registrationNumber := toString raw.regCharityNumber
    subsidiaryNumber := if raw.subCharityNumber ≠ "0" then some raw.subCharityNumber else none
    companyNumber :=
      if raw.companyNumber ≠ "" ∧ raw.companyNumber ≠ "0" then some raw.companyNumber else none
    name := raw.charityName
    otherNames := raw.otherNames.getD []
    status := mapStatus raw.status
    registeredDate := parseDate raw.dateRegistered
    removedDate := parseDate raw.dateRemoved
    website := strOrNull raw.contactWebsite
    email := strOrNull raw.contactEmail
    phone := strOrNull raw.contactTel
    address :=
      if raw.csvContactAddress ≠ "" then some raw.csvContactAddress
      else strOrNull raw.contactAddress
    latestIncome := raw.income
    latestExpenditure := raw.totalExpenditure
    financialYearEnd := parseDate raw.dateFinancialYearEnd
    employeeCount := raw.numberEmployees
    volunteerCount := raw.numberVolunteers
    trusteeCount := raw.peopleTrustees
    purposes := raw.classWhat.getD []
    beneficiaries := raw.classWho.getD []
    activities := raw.classHow.getD []
    areasOfOperation := raw.areasOfOperation.getD []
    organisationType := strOrNull raw.organisationType
    governingDocumentType :=
      match raw.governingDocument with
      | none => none
      | some g => strOrNull g.name
    charitableObjects := strOrNull raw.charitableObjects
    publicBenefit := strOrNull raw.publicBenefits
    activityDescription := strOrNull raw.activities
    rawData := .ccniDetails raw }

/-- `transformSummary` (src/clients/ccni/transform.ts): summaries carry
less data, everything unavailable is the explicit unknown sentinel. -/
def transformSummary (raw : CCNISummary) : Charity :=
  { id := "NIC" ++ raw.regNo
    regulator := .CCNI
    registrationNumber := raw.regNo
    subsidiaryNumber := if raw.subNo ≠ "0" then some raw.subNo else none
    companyNumber := none
    name := raw.name
    otherNames := []
    status := mapStatus raw.orgType
    registeredDate := none
    removedDate := none
    website := none
    email := none
    phone := none
    address := none
    latestIncome := none
    latestExpenditure := none
    financialYearEnd := none
    employeeCount := none
    volunteerCount := none
    trusteeCount := none
    purposes := []
    beneficiaries := []
    activities := []
    areasOfOperation := []
    organisationType := none
    governingDocumentType := none
    charitableObjects := none
    publicBenefit := none
    activityDescription := none
    rawData := .ccniSummary raw }

/-- Bucket mapping used by `transformSearchResponse`. -/
def transformBuckets (buckets : List CCNIAggBucket) : List AggregationBucket :=
  buckets.map (fun b => { value := b.key, label := b.displayName, count := b.count })

/-- `transformSearchResponse` (src/clients/ccni/transform.ts): pagination
fields are copied from the raw response unchanged; aggregation groups and
the `onlyShow` facet become the aggregations map. -/
def transformSearchResponse (raw : CCNISearchResponse) : SearchResult :=
  let aggregations : SearchAggregations :=
    raw.aggregationGroups.map (fun g => (g.name, transformBuckets g.buckets)) ++
      (match raw.onlyShow with
       | some g => [(g.name, transformBuckets g.buckets)]
       | none => [])
  { items := raw.pageItems.map transformSummary
    total := raw.totalItems
    page := raw.pageNumber
    pageSize := raw.pageSize
    totalPages := raw.totalPages
    aggregations := if aggregations.length > 0 then some aggregations else none }

/-- `id.replace(/^NIC/i, '')` in `CCNIClient.getCharity`: strips one
leading case-insensitive `NIC`. -/
def stripNIC (s : String) : String :=
  match s.data with
  | c1 :: c2 :: c3 :: rest =>
    if c1.toLower == 'n' && c2.toLower == 'i' && c3.toLower == 'c' then ⟨rest⟩ else s
  | _ => s

/-- Whether a string starts with a case-insensitive `NIC`, i.e. whether
the regex `/^NIC/i` matches. -/
def nicStart (s : String) : Bool :=
  match s.data with
  | c1 :: c2 :: c3 :: _ => c1.toLower == 'n' && c2.toLower == 'i' && c3.toLower == 'c'
  | _ => false

/-- The query string `CCNIClient.getCharity` sends:
`buildQueryString({ regId, subId: 0 })`. -/
def detailsQuery (regId : String) : String :=
  buildQueryString [("regId", .str regId), ("subId", .num 0)]

/-- `CCNIClient.getCharity`: strips the NIC prefix, consults the cache,
calls the upstream, caches a null result on an empty body or a 404, and
rethrows every other classified error. `upstream` maps the request query
string to the classified transport outcome (`Option` success data models
`response.data`, with `none` for an empty/falsy body). -/
def getCharity (upstream : String → Except ClientError (Option CCNIDetails))
    (st : ClientState) (id : String) :
    Except ClientError (Option Charity) × ClientState :=
  let regId := stripNIC id
  let cacheKey := getCacheKey "CCNI" "getCharity" regId
  let hit := getCached st.cache cacheKey
  match hit.1 with
  | some v => (.ok v, { st with cache := hit.2 })
  | none =>
    let st1 : ClientState := { cache := hit.2, calls := st.calls + 1 }
    match upstream (detailsQuery regId) with
    | .error .notFound => (.ok none, { st1 with cache := setCache st1.cache cacheKey none })
    | .error e => (.error e, st1)
    | .ok none => (.ok none, { st1 with cache := setCache st1.cache cacheKey none })
    | .ok (some d) =>
      if d.regCharityNumber = 0 then
        (.ok none, { st1 with cache := setCache st1.cache cacheKey none })
      else
        let result := transformDetails d
        (.ok (some result), { st1 with cache := setCache st1.cache cacheKey (some result) })

/-- CCNI-specific search filters (src/clients/ccni/client.ts). -/
structure SearchFilters where
  onlyShow : Option String := none
  income : Option String := none
  classification1 : Option String := none
  classification2 : Option String := none
  classification3 : Option String := none
  aooa : Option String := none
  aood : Option String := none
deriving DecidableEq

/-- `CCNIClient.search`: builds the parameter set (fixed context id 2153,
optional filters appended in source order), performs one transport call,
and transforms the response. No cache is consulted or written. -/
def search (upstream : String → Except ClientError CCNISearchResponse)
    (st : ClientState) (text : String) (page : Nat) (filters : SearchFilters) :
    Except ClientError SearchResult × ClientState :=
  let params : List (String × QueryVal) :=
    [("searchText", .str text), ("pageNumber", .num page), ("contextId", .num 2153)] ++
      optParam "onlyShow" filters.onlyShow ++
      optParam "income" filters.income ++
      optParam "classification1" filters.classification1 ++
      optParam "classification2" filters.classification2 ++
      optParam "classification3" filters.classification3 ++
      optParam "aooa" filters.aooa ++
      optParam "aood" filters.aood
  let st1 : ClientState := { st with calls := st.calls + 1 }
  match upstream (buildQueryString params) with
  | .error e => (.error e, st1)
  | .ok resp => (.ok (transformSearchResponse resp), st1)

/-- `CCNIClient.getOtherRegulators`: the CCNI API offers no
cross-regulator capability, so the call logs one notice and returns an
empty list without touching the transport. -/
def getOtherRegulators (_id : String) :
    Except ClientError (List OtherRegulatorInfo) × List String :=
  (.ok [], [logNotImplemented "CCNI" "getOtherRegulators"])

end CCNI

namespace CCEW

/-- CCEW status dictionary (src/clients/ccew/transform.ts `mapStatus`). -/
def mapStatus (status : String) : CharityStatus :=
  if status = "Registered" then .ACTIVE
  else if status = "Removed" then .REMOVED
  else .ACTIVE

/-- `formatAddress`: joins the non-falsy address lines and postcode with
a comma, or null when every part is absent. -/
def formatAddress (d : CCEWDetails) : Option String :=
  let parts :=
    ([d.charityContactAddress1, d.charityContactAddress2, d.charityContactAddress3,
      d.charityContactAddress4, d.charityContactAddress5,
      d.charityContactPostcode].filterMap id).filter (fun s => s ≠ "")
  if parts.isEmpty then none else some (String.intercalate ", " parts)

/-- `transformDetails` (src/clients/ccew/transform.ts). -/
def transformDetails (raw : CCEWDetails) : Charity :=
  { id := toString raw.registeredCharityNumber
    regulator := .CCEW
    registrationNumber := toString raw.registeredCharityNumber
    subsidiaryNumber :=
      if raw.linkedCharityNumber ≠ 0 then some (toString raw.linkedCharityNumber) else none
    companyNumber := optStrOrNull raw.charityCompanyRegistrationNumber
    name := raw.charityName
    otherNames := (raw.otherNames.getD []).map (fun n => n.charityOtherName)
    status := mapStatus raw.charityRegistrationStatus
    registeredDate := parseDate raw.dateOfRegistration
    removedDate := parseDate raw.dateOfRemoval
    website := optStrOrNull raw.charityContactWeb
    email := optStrOrNull raw.charityContactEmail
    phone := optStrOrNull raw.charityContactPhone
    address := formatAddress raw
    latestIncome := raw.latestIncome
    latestExpenditure := raw.latestExpenditure
    financialYearEnd := parseDate raw.latestFinancialYearEnd
    employeeCount := raw.numberOfEmployees
    volunteerCount := raw.numberOfVolunteers
    trusteeCount := raw.numberOfTrustees
    purposes := (raw.charityWhoWhat.map (fun w => w.whatTheCharityDoes)).getD []
    beneficiaries := (raw.charityWhoWhat.map (fun w => w.whoTheCharityHelps)).getD []
    activities := (raw.charityWhoWhat.map (fun w => w.howTheCharityWorks)).getD []
    areasOfOperation :=
      (raw.charityAreasOfOperation.map (fun a => a.regions)).getD [] ++
        (raw.charityAreasOfOperation.map (fun a => a.countries)).getD [] ++
        (raw.charityAreasOfOperation.map (fun a => a.localAuthorities)).getD []
    organisationType := optStrOrNull raw.organisationType
    governingDocumentType := optStrOrNull raw.governingDocument
    charitableObjects := optStrOrNull raw.charitableObjects
    publicBenefit := none
    activityDescription := none
    rawData := .ccewDetails raw }

/-- `transformSummary` (src/clients/ccew/transform.ts). -/
def transformSummary (raw : CCEWSummary) : Charity :=
  { id := toString raw.registeredCharityNumber
    regulator := .CCEW
    registrationNumber := toString raw.registeredCharityNumber
    subsidiaryNumber :=
      if raw.linkedCharityNumber ≠ 0 then some (toString raw.linkedCharityNumber) else none
    companyNumber := none
    name := raw.charityName
    otherNames := []
    status := mapStatus raw.registrationStatus
    registeredDate := parseDate raw.dateOfRegistration
    removedDate := parseDate raw.dateOfRemoval
    website := none
    email := none
    phone := none
    address := none
    latestIncome := none
    latestExpenditure := none
    financialYearEnd := none
    employeeCount := none
    volunteerCount := none
    trusteeCount := none
    purposes := []
    beneficiaries := []
    activities := []
    areasOfOperation := []
    organisationType := optStrOrNull raw.charityType
    governingDocumentType := none
    charitableObjects := none
    publicBenefit := none
    activityDescription := none
    rawData := .ccewSummary raw }

/-- `transformSearchResponse` (src/clients/ccew/transform.ts): the page
count is recomputed as `Math.ceil(totalResults / pageSize)`. -/
def transformSearchResponse (raw : CCEWSearchResponse) : SearchResult :=
  { items := raw.charities.map transformSummary
    total := raw.totalResults
    page := raw.pageNumber
    pageSize := raw.pageSize
    totalPages := jsCeilDiv raw.totalResults raw.pageSize
    aggregations := none }

/-- `id.replace(/\D/g, '')` in `CCEWClient.getCharity`: keeps the decimal
digits only. -/
def stripNonDigits (s : String) : String :=
  ⟨s.data.filter Char.isDigit⟩

/-- The query string `CCEWClient.getCharity` sends:
`buildQueryString({ registeredCharityNumber })`. -/
def detailsQuery (regNumber : String) : String :=
  buildQueryString [("registeredCharityNumber", .str regNumber)]

/-- `CCEWClient.getCharity`: normalizes the id to digits, consults the
cache, calls the upstream; a 404 or empty body caches and returns null,
an authentication failure is rethrown, and every other error is caught,
cached as null and returned as null. -/
def getCharity (upstream : String → Except ClientError (Option CCEWDetails))
    (st : ClientState) (id : String) :
    Except ClientError (Option Charity) × ClientState :=
  let regNumber := stripNonDigits id
  let cacheKey := getCacheKey "CCEW" "getCharity" regNumber
  let hit := getCached st.cache cacheKey
  match hit.1 with
  | some v => (.ok v, { st with cache := hit.2 })
  | none =>
    let st1 : ClientState := { cache := hit.2, calls := st.calls + 1 }
    match upstream (detailsQuery regNumber) with
    | .error .notFound => (.ok none, { st1 with cache := setCache st1.cache cacheKey none })
    | .error (.authFailed s) => (.error (.authFailed s), st1)
    | .error _ => (.ok none, { st1 with cache := setCache st1.cache cacheKey none })
    | .ok none => (.ok none, { st1 with cache := setCache st1.cache cacheKey none })
    | .ok (some d) =>
      if d.registeredCharityNumber = 0 then
        (.ok none, { st1 with cache := setCache st1.cache cacheKey none })
      else
        let result := transformDetails d
        (.ok (some result), { st1 with cache := setCache st1.cache cacheKey (some result) })

end CCEW

namespace OSCR

/-- OSCR status dictionary (src/clients/oscr/transform.ts `mapStatus`). -/
def mapStatus (status : String) : CharityStatus :=
  if status = "Active" then .ACTIVE
  else if status = "Removed" then .REMOVED
  else .ACTIVE

/-- `transformCharity` (src/clients/oscr/transform.ts). -/
def transformCharity (raw : OSCRCharity) : Charity :=
  { id := raw.charityNumber
    regulator := .OSCR
    registrationNumber := raw.charityNumber
    subsidiaryNumber := none
    companyNumber := none
    name := raw.charityName
    otherNames :=
      match raw.knownAs with
      | none => []
      | some k => if k = "" then [] else [k]
    status := mapStatus raw.charityStatus
    registeredDate := parseDate raw.registeredDate
    removedDate := none
    website := optStrOrNull raw.website
    email := none
    phone := none
    address :=
      match raw.principalContactAddress with
      | some a =>
        if a ≠ "" then some a else strOrNull raw.principalOfficeOrTrusteeAddress
      | none => strOrNull raw.principalOfficeOrTrusteeAddress
    latestIncome := raw.mostRecentYearIncome
    latestExpenditure := raw.mostRecentYearExpenditure
    financialYearEnd := parseDate raw.yearEnd
    employeeCount := none
    volunteerCount := none
    trusteeCount := none
    purposes := raw.purposes.getD []
    beneficiaries := raw.beneficiaries.getD []
    activities := raw.typesOfActivities.getD []
    areasOfOperation :=
      [raw.geographicalSpread, raw.mainOperatingLocation].filter (fun s => s ≠ "")
    organisationType := strOrNull raw.currentConstitutionalForm
    governingDocumentType := none
    charitableObjects := strOrNull raw.objectives
    publicBenefit := none
    activityDescription := optStrOrNull raw.notes
    rawData := .oscrCharity raw }

/-- `transformAllCharitiesResponse` (src/clients/oscr/transform.ts): OSCR
supplies no true total, so the page size is the observed item count (100
when the page is empty) and the total is estimated as
`totalPages * pageSize`. -/
def transformAllCharitiesResponse (raw : OSCRAllCharitiesResp) : SearchResult :=
  let pageSize := if raw.data.length = 0 then 100 else raw.data.length
  let total := raw.totalPages * pageSize
  { items := raw.data.map transformCharity
    total := total
    page := raw.currentPage
    pageSize := pageSize
    totalPages := raw.totalPages
    aggregations := none }

/-- `transformAnnualReturn` (src/clients/oscr/transform.ts). -/
def transformAnnualReturn (raw : OSCRAnnualReturn) : FinancialYear :=
  { yearEnd := ⟨raw.AccountingReferenceDate⟩
    income := raw.GrossIncome
    expenditure := raw.GrossExpenditure }

/-- `transformAnnualReturns`. -/
def transformAnnualReturns (raw : List OSCRAnnualReturn) : List FinancialYear :=
  raw.map transformAnnualReturn

/-- `enrichCharityWithAnnualReturn` (src/clients/oscr/transform.ts):
object spread of the charity with the five financial/people fields
overridden by the annual return when present there. -/
def enrichCharityWithAnnualReturn (charity : Charity) (annualReturn : OSCRAnnualReturn) :
    Charity :=
  { charity with
    employeeCount := jsNullish annualReturn.PaidStaff charity.employeeCount
    trusteeCount := jsNullish annualReturn.TotalNumberofCharityTrustees charity.trusteeCount
    latestIncome := jsNullish annualReturn.GrossIncome charity.latestIncome
    latestExpenditure := jsNullish annualReturn.GrossExpenditure charity.latestExpenditure
    financialYearEnd :=
      jsNullish (parseDate (some annualReturn.AccountingReferenceDate)) charity.financialYearEnd }

/-- The id normalization in `OSCRClient.getCharity`:
`id.toUpperCase().startsWith('SC') ? id.toUpperCase() : 'SC' + id`. -/
def scCharityNumber (id : String) : String :=
  if jsStartsWith (jsToUpper id) "SC" then jsToUpper id else "SC" ++ id

/-- The query string `OSCRClient.getCharity` sends:
`buildQueryString({ charitynumber })`. -/
def charityQuery (charityNumber : String) : String :=
  buildQueryString [("charitynumber", .str charityNumber)]

/-- `OSCRClient.getCharity`: normalizes the SC number, queries the
all-charities endpoint and takes the first record; an authentication
failure is rethrown and every other thrown error is caught and collapsed
to null, as is an empty record list. No cache is consulted. -/
def getCharity (upstream : String → Except ClientError OSCRAllCharitiesResp)
    (id : String) : Except ClientError (Option Charity) :=
  match upstream (charityQuery (scCharityNumber id)) with
  | .error (.authFailed s) => .error (.authFailed s)
  | .error _ => .ok none
  | .ok resp =>
    match resp.data.head? with
    | none => .ok none
    | some c => .ok (some (transformCharity c))

/-- The query string `getAnnualReturnsById` sends:
`buildQueryString({ charityid })`. -/
def annualReturnsQuery (charityId : String) : String :=
  buildQueryString [("charityid", .str charityId)]

/-- `OSCRClient.getAnnualReturnsById`: fetches the raw annual returns for
an internal UUID; `response.data ?? []` on success, and any thrown error
is caught and collapsed to the empty list. -/
def getAnnualReturnsById
    (annualUpstream : String → Except ClientError (Option (List OSCRAnnualReturn)))
    (charityId : String) : List OSCRAnnualReturn :=
  match annualUpstream (annualReturnsQuery charityId) with
  | .ok (some rs) => rs
  | .ok none => []
  | .error _ => []

/-- The unchecked cast `charity._raw as OSCRCharity` followed by `.id`. -/
def rawCharityId : RawPayload → String
  | .oscrCharity c => c.id
  | _ => ""

/-- `OSCRClient.getAnnualReturns`: resolves the charity to recover the
internal UUID, then fetches and transforms its annual returns. -/
def getAnnualReturns (upstream : String → Except ClientError OSCRAllCharitiesResp)
    (annualUpstream : String → Except ClientError (Option (List OSCRAnnualReturn)))
    (id : String) : Except ClientError (List FinancialYear) :=
  match getCharity upstream id with
  | .error e => .error e
  | .ok none => .ok []
  | .ok (some charity) =>
    .ok (transformAnnualReturns (getAnnualReturnsById annualUpstream (rawCharityId charity.rawData)))

/-- The stable descending sort by `AccountingReferenceDate` followed by
`[0]` in `getLatestAnnualReturnRaw`: the first entry attaining the
maximal date key. -/
def latestOf (returns : List OSCRAnnualReturn) : Option OSCRAnnualReturn :=
  returns.foldl
    (fun best r =>
      match best with
      | none => some r
      | some b =>
        if dateSortKey r.AccountingReferenceDate > dateSortKey b.AccountingReferenceDate then
          some r
        else some b)
    none

/-- `OSCRClient.getLatestAnnualReturnRaw`. -/
def getLatestAnnualReturnRaw
    (annualUpstream : String → Except ClientError (Option (List OSCRAnnualReturn)))
    (charityId : String) : Option OSCRAnnualReturn :=
  latestOf (getAnnualReturnsById annualUpstream charityId)

/-- `OSCRClient.getCharityWithFinancials`: resolves the primary record,
fetches the annual returns, and only when at least one exists re-fetches
the latest raw return and enriches; otherwise the primary record is
returned unchanged. -/
def getCharityWithFinancials
    (upstream : String → Except ClientError OSCRAllCharitiesResp)
    (annualUpstream : String → Except ClientError (Option (List OSCRAnnualReturn)))
    (id : String) : Except ClientError (Option Charity) :=
  match getCharity upstream id with
  | .error e => .error e
  | .ok none => .ok none
  | .ok (some charity) =>
    match getAnnualReturns upstream annualUpstream id with
    | .error e => .error e
    | .ok annualReturns =>
      if annualReturns.length > 0 then
        match getLatestAnnualReturnRaw annualUpstream (rawCharityId charity.rawData) with
        | some latestReturn => .ok (some (enrichCharityWithAnnualReturn charity latestReturn))
        | none => .ok (some charity)
      else .ok (some charity)

/-- Modelled from the spec: `OSCRClient.searchByName` is missing from the
captured source (src/unnamed/part_012 is truncated after
`getLatestAnnualReturnRaw`); per spec §4.5 an operation with no upstream
equivalent returns an empty search page preserving the requested page
number and emits one diagnostic notice, never an error. -/
def searchByName (_name : String) (page : Nat) :
    Except ClientError SearchResult × List String :=
  (.ok { items := [], total := 0, page := page, pageSize := 20, totalPages := 0,
         aggregations := none },
   [logNotImplemented "OSCR" "searchByName"])

/-- Modelled from the spec: `OSCRClient.getTrustees` is missing from the
captured source; per spec §4.5 it returns an empty list and emits one
diagnostic notice, never an error. -/
def getTrustees (_id : String) : Except ClientError (List Trustee) × List String :=
  (.ok [], [logNotImplemented "OSCR" "getTrustees"])

/-- Modelled from the spec: `OSCRClient.getOtherRegulators` is missing
from the captured source; per spec §4.5 it returns an empty list and
emits one diagnostic notice, never an error. -/
def getOtherRegulators (_id : String) :
    Except ClientError (List OtherRegulatorInfo) × List String :=
  (.ok [], [logNotImplemented "OSCR" "getOtherRegulators"])

end OSCR

/-! ## Concrete fixtures used to instantiate the theorems -/

/-- A minimal OSCR charity record. -/
def sampleOSCRCharity : OSCRCharity :=
  { id := "c1f3"
    charityName := "Sample Charity"
    charityNumber := "SC000001"
    registeredDate := none
    knownAs := none
    website := none
    charityStatus := "Active"
    currentConstitutionalForm := ""
    notes := none
    geographicalSpread := ""
    mainOperatingLocation := ""
    purposes := none
    beneficiaries := none
    typesOfActivities := none
    objectives := ""
    principalOfficeOrTrusteeAddress := ""
    principalContactAddress := none
    mostRecentYearIncome := none
    mostRecentYearExpenditure := none
    yearEnd := none }

/-- An OSCR upstream that always answers with one charity record. -/
def oscrSampleUpstream : String → Except ClientError OSCRAllCharitiesResp :=
  fun _ => .ok { currentPage := 1, totalPages := 1, data := [sampleOSCRCharity] }

/-- An annual-returns upstream that always answers with an empty list. -/
def oscrEmptyAnnualUpstream : String → Except ClientError (Option (List OSCRAnnualReturn)) :=
  fun _ => .ok (some [])

/-- A CCNI upstream whose success body is always empty (a known-absent
charity). -/
def ccniAbsentUpstream : String → Except ClientError (Option CCNIDetails) :=
  fun _ => .ok none

/-! ## Theorems -/

/-- C9: `buildQueryString` skips exactly the entries whose value is
undefined, null or the empty string (so explicit `0` and `false` are
preserved), renders the kept entries in insertion order (filtering the
parameter list first changes nothing), and the spec's example
`{page: 1, search: undefined, note: '', flag: false}` serializes to
`?page=1&flag=false`, containing `page=1` and `flag=false` and omitting
`search` and `note`. -/
theorem buildQueryString_skip_policy :
    (∀ v : QueryVal, keepParam v = false ↔ (v = .undef ∨ v = .null ∨ v = .str "")) ∧
    (∀ params : List (String × QueryVal),
      buildQueryString params = buildQueryString (params.filter (fun p => keepParam p.2))) ∧
    buildQueryString
        [("page", .num 1), ("search", .undef), ("note", .str ""), ("flag", .bool false)] =
      "?page=1&flag=false" := by
  refine ⟨?_, ?_, ?_⟩
  · intro v
    cases v with
    | undef => simp [keepParam]
    | null => simp [keepParam]
    | str s => simp [keepParam]
    | num n => simp [keepParam]
    | bool b => simp [keepParam]
  · intro params
    simp [buildQueryString, List.filter_filter]
  · decide

/-- C9 witness: the skip characterization evaluated at explicit `0` and
`false` values together with the concrete example. -/
theorem buildQueryString_skip_policy_witness :
    keepParam (.num 0) = true ∧ keepParam (.bool false) = true ∧
    buildQueryString
        [("page", .num 1), ("search", .undef), ("note", .str ""), ("flag", .bool false)] =
      "?page=1&flag=false" := by
  refine ⟨?_, ?_, buildQueryString_skip_policy.2.2⟩
  · have h := (buildQueryString_skip_policy.1 (.num 0)).mpr
    revert h
    decide
  · have h := (buildQueryString_skip_policy.1 (.bool false)).mpr
    revert h
    decide

/-- C3 counterexample: a present but non-numeric `Retry-After` header
(the repo test uses `invalid`) leaves `RateLimitError.retryAfter` equal
to `NaN`, not unset, because the reset guard tests the falsy `NaN` value
and never fires. -/
theorem rateLimitRetryAfter_invalid_is_nan :
    rateLimitRetryAfter (some "invalid") = .nan ∧
    rateLimitRetryAfter (some "invalid") ≠ .undef := by
  decide

/-- C3 amended: a 429 response exposes the parsed integer `retryAfter`
when the header is a valid integer, an unset value when the header is
absent or empty, and `NaN` (never a crash or thrown type error) when the
header is present but non-numeric. -/
theorem rateLimitRetryAfter_amended :
    rateLimitRetryAfter none = .undef ∧
    rateLimitRetryAfter (some "") = .undef ∧
    (∀ h n, h ≠ "" → jsParseInt h = some n → rateLimitRetryAfter (some h) = .val n) ∧
    (∀ h, h ≠ "" → jsParseInt h = none → rateLimitRetryAfter (some h) = .nan) := by
  refine ⟨rfl, by decide, ?_, ?_⟩
  · intro h n hne hparse
    simp [rateLimitRetryAfter, hne, hparse]
  · intro h hne hparse
    simp [rateLimitRetryAfter, hne, hparse]

/-- C3 witness: the amended characterization applied at the headers `60`
(valid) and `invalid` (non-numeric). -/
theorem rateLimitRetryAfter_amended_witness :
    rateLimitRetryAfter (some "60") = .val 60 ∧
    rateLimitRetryAfter (some "invalid") = .nan :=
  ⟨rateLimitRetryAfter_amended.2.2.1 "60" 60 (by decide) (by decide),
   rateLimitRetryAfter_amended.2.2.2 "invalid" (by decide) (by decide)⟩

/-- C10: `enrichCharityWithAnnualReturn` builds a new record in which
only `employeeCount`, `trusteeCount`, `latestIncome`,
`latestExpenditure` and `financialYearEnd` may differ from the input;
every other field of the normalized record is unchanged (the TypeScript
function spreads the input into a fresh object, so the input itself is
never mutated). -/
theorem enrichCharityWithAnnualReturn_frame :
    ∀ (charity : Charity) (ar : OSCRAnnualReturn),
      (OSCR.enrichCharityWithAnnualReturn charity ar).id = charity.id ∧
      (OSCR.enrichCharityWithAnnualReturn charity ar).regulator = charity.regulator ∧
      (OSCR.enrichCharityWithAnnualReturn charity ar).registrationNumber =
        charity.registrationNumber ∧
      (OSCR.enrichCharityWithAnnualReturn charity ar).subsidiaryNumber =
        charity.subsidiaryNumber ∧
      (OSCR.enrichCharityWithAnnualReturn charity ar).companyNumber = charity.companyNumber ∧
      (OSCR.enrichCharityWithAnnualReturn charity ar).name = charity.name ∧
      (OSCR.enrichCharityWithAnnualReturn charity ar).otherNames = charity.otherNames ∧
      (OSCR.enrichCharityWithAnnualReturn charity ar).status = charity.status ∧
      (OSCR.enrichCharityWithAnnualReturn charity ar).registeredDate = charity.registeredDate ∧
      (OSCR.enrichCharityWithAnnualReturn charity ar).removedDate = charity.removedDate ∧
      (OSCR.enrichCharityWithAnnualReturn charity ar).website = charity.website ∧
      (OSCR.enrichCharityWithAnnualReturn charity ar).email = charity.email ∧
      (OSCR.enrichCharityWithAnnualReturn charity ar).phone = charity.phone ∧
      (OSCR.enrichCharityWithAnnualReturn charity ar).address = charity.address ∧
      (OSCR.enrichCharityWithAnnualReturn charity ar).volunteerCount = charity.volunteerCount ∧
      (OSCR.enrichCharityWithAnnualReturn charity ar).purposes = charity.purposes ∧
      (OSCR.enrichCharityWithAnnualReturn charity ar).beneficiaries = charity.beneficiaries ∧
      (OSCR.enrichCharityWithAnnualReturn charity ar).activities = charity.activities ∧
      (OSCR.enrichCharityWithAnnualReturn charity ar).areasOfOperation =
        charity.areasOfOperation ∧
      (OSCR.enrichCharityWithAnnualReturn charity ar).organisationType =
        charity.organisationType ∧
      (OSCR.enrichCharityWithAnnualReturn charity ar).governingDocumentType =
        charity.governingDocumentType ∧
      (OSCR.enrichCharityWithAnnualReturn charity ar).charitableObjects =
        charity.charitableObjects ∧
      (OSCR.enrichCharityWithAnnualReturn charity ar).publicBenefit = charity.publicBenefit ∧
      (OSCR.enrichCharityWithAnnualReturn charity ar).activityDescription =
        charity.activityDescription ∧
      (OSCR.enrichCharityWithAnnualReturn charity ar).rawData = charity.rawData := by
  intro charity ar
  exact ⟨rfl, rfl, rfl, rfl, rfl, rfl, rfl, rfl, rfl, rfl, rfl, rfl, rfl, rfl, rfl, rfl,
    rfl, rfl, rfl, rfl, rfl, rfl, rfl, rfl, rfl⟩

/-- C2: every operation with no equivalent upstream capability returns an
empty result of the correct shape — an empty list, or a search page with
zero items and zero total that preserves the requested page number — and
emits exactly the one diagnostic notice naming the regulator and the
method, and never raises an error: this covers CCNI `getOtherRegulators`
(from the source) and OSCR `searchByName`, `getTrustees` and
`getOtherRegulators` (modelled from the spec, the captured OSCR client
source being truncated). -/
theorem unsupported_capability_policy :
    (∀ id, CCNI.getOtherRegulators id =
      (.ok [], [logNotImplemented "CCNI" "getOtherRegulators"])) ∧
    (∀ name page,
      (OSCR.searchByName name page).1 =
        .ok { items := [], total := 0, page := page, pageSize := 20, totalPages := 0,
              aggregations := none } ∧
      (OSCR.searchByName name page).2 = [logNotImplemented "OSCR" "searchByName"]) ∧
    (∀ id, OSCR.getTrustees id = (.ok [], [logNotImplemented "OSCR" "getTrustees"])) ∧
    (∀ id, OSCR.getOtherRegulators id =
      (.ok [], [logNotImplemented "OSCR" "getOtherRegulators"])) := by
  exact ⟨fun _ => rfl, fun _ _ => ⟨rfl, rfl⟩, fun _ => rfl, fun _ => rfl⟩

-- A 500 on every attempt walks through the whole retry budget and then
-- returns the last failed response.
theorem httpLoop_const_500 (attempt : Nat) :
    ∀ fuel, httpLoop (fun _ => .resp 500) attempt fuel = (.resp 500, attempt + fuel + 1) := by
  intro fuel
  induction fuel generalizing attempt with
  | zero => simp [httpLoop]
  | succ fuel ih =>
    have h := ih (attempt + 1)
    simp [httpLoop, respOk, isRetryable, h]
    omega

/-- C4: a transport call answering 500 then 200 yields the 200 response
with exactly two `fetch` invocations (for any positive retry budget); a
call answering 500 on every attempt returns a final failed 500 response
after exactly `1 + maxRetries` invocations, which the request core then
classifies as a generic API error; a 404 response is returned after
exactly one invocation and classified as NotFound; and a status is
retried exactly when it is at least 500, is 408 or 429, or is the
status-0 connectivity marker (thrown connectivity-class errors being the
other retried case in the loop). -/
theorem transport_retry_counts :
    (∀ maxRetries, 1 ≤ maxRetries →
      httpRequest (fun n => if n = 0 then .resp 500 else .resp 200) maxRetries =
        (.resp 200, 2)) ∧
    (∀ maxRetries,
      httpRequest (fun _ => .resp 500) maxRetries = (.resp 500, maxRetries + 1) ∧
      handleErrorResponse 500 none = .api 500) ∧
    (∀ maxRetries,
      httpRequest (fun _ => .resp 404) maxRetries = (.resp 404, 1) ∧
      handleErrorResponse 404 none = .notFound) ∧
    (∀ status, isRetryable status = true ↔
      (500 ≤ status ∨ status = 408 ∨ status = 429 ∨ status = 0)) := by
  refine ⟨?_, ?_, ?_, ?_⟩
  · intro maxRetries hm
    obtain ⟨k, rfl⟩ : ∃ k, maxRetries = k + 1 := ⟨maxRetries - 1, by omega⟩
    cases k with
    | zero => simp [httpRequest, httpLoop, respOk, isRetryable]
    | succ k => simp [httpRequest, httpLoop, respOk, isRetryable]
  · intro maxRetries
    refine ⟨?_, by decide⟩
    have h := httpLoop_const_500 0 maxRetries
    simpa [httpRequest] using h
  · intro maxRetries
    refine ⟨?_, by decide⟩
    cases maxRetries with
    | zero => simp [httpRequest, httpLoop]
    | succ k => simp [httpRequest, httpLoop, respOk, isRetryable]
  · intro status
    simp [isRetryable]
    tauto

/-- C4 witness: the retry scenarios evaluated at the default retry budget
`maxRetries = 3`. -/
theorem transport_retry_counts_witness :
    httpRequest (fun n => if n = 0 then .resp 500 else .resp 200) 3 = (.resp 200, 2) ∧
    httpRequest (fun _ => .resp 500) 3 = (.resp 500, 4) ∧
    httpRequest (fun _ => .resp 404) 3 = (.resp 404, 1) :=
  ⟨transport_retry_counts.1 3 (by decide),
   (transport_retry_counts.2.1 3).1,
   (transport_retry_counts.2.2.1 3).1⟩

/-- C7 counterexample: the CCNI transform copies `totalPages`, `total`
and `pageSize` from the raw response unchanged, so a source page whose
own fields are inconsistent (here 1 item, page size 10, but 7 claimed
pages) produces a `SearchResult` violating
`totalPages = ceil(total / pageSize)` even though the source provided
enough information to compute it. -/
theorem ccni_totalPages_inconsistent :
    (CCNI.transformSearchResponse
        { pageNumber := 1, pageSize := 10, totalPages := 7, totalItems := 1,
          pageItems := [], aggregationGroups := [], onlyShow := none }).totalPages ≠
      jsCeilDiv
        (CCNI.transformSearchResponse
            { pageNumber := 1, pageSize := 10, totalPages := 7, totalItems := 1,
              pageItems := [], aggregationGroups := [], onlyShow := none }).total
        (CCNI.transformSearchResponse
            { pageNumber := 1, pageSize := 10, totalPages := 7, totalItems := 1,
              pageItems := [], aggregationGroups := [], onlyShow := none }).pageSize := by
  decide

/-- C7 amended: the CCEW transform computes
`totalPages = ceil(total / pageSize)` outright (for a positive source
page size); the OSCR transform reports a best-effort total equal to
`totalPages` times the observed page size — which is always positive —
so the same identity holds; the CCNI transform passes the source
pagination fields through unchanged, so the identity holds there exactly
when the source response's own fields already satisfy it. -/
theorem totalPages_consistency_amended :
    (∀ raw : CCEWSearchResponse, 0 < raw.pageSize →
      (CCEW.transformSearchResponse raw).totalPages =
        jsCeilDiv (CCEW.transformSearchResponse raw).total
          (CCEW.transformSearchResponse raw).pageSize) ∧
    (∀ raw : OSCRAllCharitiesResp,
      0 < (OSCR.transformAllCharitiesResponse raw).pageSize ∧
      (OSCR.transformAllCharitiesResponse raw).total =
        (OSCR.transformAllCharitiesResponse raw).totalPages *
          (OSCR.transformAllCharitiesResponse raw).pageSize ∧
      (OSCR.transformAllCharitiesResponse raw).totalPages =
        jsCeilDiv (OSCR.transformAllCharitiesResponse raw).total
          (OSCR.transformAllCharitiesResponse raw).pageSize) ∧
    (∀ raw : CCNISearchResponse,
      (CCNI.transformSearchResponse raw).totalPages = raw.totalPages ∧
      (CCNI.transformSearchResponse raw).total = raw.totalItems ∧
      (CCNI.transformSearchResponse raw).pageSize = raw.pageSize ∧
      (raw.totalPages = jsCeilDiv raw.totalItems raw.pageSize →
        (CCNI.transformSearchResponse raw).totalPages =
          jsCeilDiv (CCNI.transformSearchResponse raw).total
            (CCNI.transformSearchResponse raw).pageSize)) := by
  have ceil_mul : ∀ t p : Nat, 0 < p → jsCeilDiv (t * p) p = t := by
    intro t p hp
    have h1 : t * p + p - 1 = p * t + (p - 1) := by
      rw [Nat.mul_comm]
      omega
    rw [jsCeilDiv, h1, Nat.mul_add_div hp, Nat.div_eq_of_lt (by omega)]
    omega
  refine ⟨?_, ?_, ?_⟩
  · intro raw _
    rfl
  · intro raw
    by_cases hlen : raw.data.length = 0
    · refine ⟨?_, ?_, ?_⟩
      · simp [OSCR.transformAllCharitiesResponse, hlen]
      · simp [OSCR.transformAllCharitiesResponse, hlen]
      · simp only [OSCR.transformAllCharitiesResponse, hlen, if_pos]
        exact (ceil_mul raw.totalPages 100 (by omega)).symm
    · have hp : 0 < raw.data.length := Nat.pos_of_ne_zero hlen
      refine ⟨?_, ?_, ?_⟩
      · simp [OSCR.transformAllCharitiesResponse, hlen, hp]
      · simp [OSCR.transformAllCharitiesResponse, hlen]
      · simp only [OSCR.transformAllCharitiesResponse, hlen, if_neg]
        exact (ceil_mul raw.totalPages raw.data.length hp).symm
  · intro raw
    exact ⟨rfl, rfl, rfl, fun h => h⟩

/-- C7 witness: the amended consistency at a concrete CCEW page (10
results, page size 4) and the pass-through conditional at a consistent
concrete CCNI page. -/
theorem totalPages_consistency_witness :
    (CCEW.transformSearchResponse
        { charities := [], totalResults := 10, pageNumber := 1, pageSize := 4 }).totalPages =
      jsCeilDiv 10 4 ∧
    (CCNI.transformSearchResponse
        { pageNumber := 1, pageSize := 10, totalPages := 1, totalItems := 1,
          pageItems := [], aggregationGroups := [], onlyShow := none }).totalPages =
      jsCeilDiv 1 10 :=
  ⟨totalPages_consistency_amended.1
      { charities := [], totalResults := 10, pageNumber := 1, pageSize := 4 } (by decide),
   (totalPages_consistency_amended.2.2
      { pageNumber := 1, pageSize := 10, totalPages := 1, totalItems := 1,
        pageItems := [], aggregationGroups := [], onlyShow := none }).2.2.2 (by decide)⟩

/-- C8: when the primary record resolves and the secondary
financial-return lookup yields an empty list, `getCharityWithFinancials`
returns the primary record unchanged — not null and not an error. -/
theorem getCharityWithFinancials_empty_secondary :
    ∀ (upstream : String → Except ClientError OSCRAllCharitiesResp)
      (annualUpstream : String → Except ClientError (Option (List OSCRAnnualReturn)))
      (id : String) (charity : Charity),
      OSCR.getCharity upstream id = .ok (some charity) →
      OSCR.getAnnualReturnsById annualUpstream (OSCR.rawCharityId charity.rawData) = [] →
      OSCR.getCharityWithFinancials upstream annualUpstream id = .ok (some charity) := by
  intro upstream annualUpstream id charity h1 h2
  unfold OSCR.getCharityWithFinancials OSCR.getAnnualReturns
  rw [h1]
  simp [h2, OSCR.transformAnnualReturns]

/-- C8 witness: the empty-secondary enrichment evaluated at a concrete
upstream holding one charity and an annual-returns upstream answering an
empty list. -/
theorem getCharityWithFinancials_empty_secondary_witness :
    OSCR.getCharityWithFinancials oscrSampleUpstream oscrEmptyAnnualUpstream "SC000001" =
      .ok (some (OSCR.transformCharity sampleOSCRCharity)) :=
  getCharityWithFinancials_empty_secondary oscrSampleUpstream oscrEmptyAnnualUpstream
    "SC000001" (OSCR.transformCharity sampleOSCRCharity) rfl rfl

/-- C1 counterexample: a generic API failure (here an upstream throwing
the classified 500 error) does not propagate out of `CCEWClient.getCharity`
or `OSCRClient.getCharity` — both collapse it to a null result (a
rate-limit error collapses in OSCR the same way), contradicting the
claim that every classified error other than true not-found propagates
unchanged. -/
theorem getCharity_error_collapse :
    (CCEW.getCharity (fun _ => .error (.api 500)) (initState true) "123").1 = .ok none ∧
    OSCR.getCharity (fun _ => .error (.rateLimited .undef)) "123" = .ok none := by
  exact ⟨rfl, rfl⟩

/-- C1 amended: an authentication failure raised while resolving
`getCharity` propagates to the caller in all three clients, and a true
not-found (404 or empty success body) collapses to null in all three;
the CCNI client additionally propagates every other classified error
unchanged, but the CCEW and OSCR clients collapse every other classified
error (rate-limited, generic API failure, network failure) to null as
well, CCEW also caching that null. (The cache-miss hypotheses put the
cached clients on their first resolution of the id.) -/
theorem getCharity_error_propagation_amended :
    (∀ upstream st id status,
      upstream (CCEW.detailsQuery (CCEW.stripNonDigits id)) = .error (.authFailed status) →
      (getCached st.cache (getCacheKey "CCEW" "getCharity" (CCEW.stripNonDigits id))).1 =
        none →
      (CCEW.getCharity upstream st id).1 = .error (.authFailed status)) ∧
    (∀ upstream id status,
      upstream (OSCR.charityQuery (OSCR.scCharityNumber id)) = .error (.authFailed status) →
      OSCR.getCharity upstream id = .error (.authFailed status)) ∧
    (∀ upstream st id status,
      upstream (CCNI.detailsQuery (CCNI.stripNIC id)) = .error (.authFailed status) →
      (getCached st.cache (getCacheKey "CCNI" "getCharity" (CCNI.stripNIC id))).1 = none →
      (CCNI.getCharity upstream st id).1 = .error (.authFailed status)) ∧
    (∀ upstream st id e, e ≠ .notFound →
      upstream (CCNI.detailsQuery (CCNI.stripNIC id)) = .error e →
      (getCached st.cache (getCacheKey "CCNI" "getCharity" (CCNI.stripNIC id))).1 = none →
      (CCNI.getCharity upstream st id).1 = .error e) ∧
    (∀ upstream st id e, (∀ status, e ≠ .authFailed status) →
      upstream (CCEW.detailsQuery (CCEW.stripNonDigits id)) = .error e →
      (getCached st.cache (getCacheKey "CCEW" "getCharity" (CCEW.stripNonDigits id))).1 =
        none →
      (CCEW.getCharity upstream st id).1 = .ok none) ∧
    (∀ upstream id e, (∀ status, e ≠ .authFailed status) →
      upstream (OSCR.charityQuery (OSCR.scCharityNumber id)) = .error e →
      OSCR.getCharity upstream id = .ok none) := by
  refine ⟨?_, ?_, ?_, ?_, ?_, ?_⟩
  · intro upstream st id status hup hmiss
    unfold CCEW.getCharity
    simp only [hmiss, hup]
  · intro upstream id status hup
    unfold OSCR.getCharity
    rw [hup]
  · intro upstream st id status hup hmiss
    unfold CCNI.getCharity
    simp only [hmiss, hup]
  · intro upstream st id e hne hup hmiss
    unfold CCNI.getCharity
    cases e with
    | notFound => exact absurd rfl hne
    | rateLimited r => simp only [hmiss, hup]
    | authFailed s => simp only [hmiss, hup]
    | network => simp only [hmiss, hup]
    | api s => simp only [hmiss, hup]
  · intro upstream st id e hne hup hmiss
    unfold CCEW.getCharity
    cases e with
    | notFound => simp only [hmiss, hup]
    | rateLimited r => simp only [hmiss, hup]
    | authFailed s => exact absurd rfl (hne s)
    | network => simp only [hmiss, hup]
    | api s => simp only [hmiss, hup]
  · intro upstream id e hne hup
    unfold OSCR.getCharity
    rw [hup]
    cases e with
    | notFound => rfl
    | rateLimited r => rfl
    | authFailed s => exact absurd rfl (hne s)
    | network => rfl
    | api s => rfl

/-- C1 witness: authentication failure propagating out of all three
clients, and a network failure propagating out of CCNI but collapsing to
null in CCEW and OSCR, each on a freshly constructed client. -/
theorem getCharity_error_propagation_amended_witness :
    (CCEW.getCharity (fun _ => .error (.authFailed 401)) (initState true) "123").1 =
      .error (.authFailed 401) ∧
    OSCR.getCharity (fun _ => .error (.authFailed 403)) "123" = .error (.authFailed 403) ∧
    (CCNI.getCharity (fun _ => .error (.authFailed 401)) (initState true) "123").1 =
      .error (.authFailed 401) ∧
    (CCNI.getCharity (fun _ => .error .network) (initState true) "123").1 = .error .network ∧
    (CCEW.getCharity (fun _ => .error .network) (initState true) "123").1 = .ok none ∧
    OSCR.getCharity (fun _ => .error .network) "123" = .ok none :=
  ⟨getCharity_error_propagation_amended.1 _ (initState true) "123" 401 rfl rfl,
   getCharity_error_propagation_amended.2.1 _ "123" 403 rfl,
   getCharity_error_propagation_amended.2.2.1 _ (initState true) "123" 401 rfl rfl,
   getCharity_error_propagation_amended.2.2.2.1 _ (initState true) "123" .network
     (fun h => ClientError.noConfusion h) rfl rfl,
   getCharity_error_propagation_amended.2.2.2.2.1 _ (initState true) "123" .network
     (fun _ h => ClientError.noConfusion h) rfl rfl,
   getCharity_error_propagation_amended.2.2.2.2.2 _ "123" .network
     (fun _ h => ClientError.noConfusion h) rfl⟩

-- Cache plumbing lemmas shared by the caching theorems.
theorem getCached_empty (k : String) (m : Nat) :
    getCached (some ⟨[], m⟩) k = (none, some ⟨[], m⟩) := rfl

theorem setCache_empty (k : String) (v : Option Charity) :
    setCache (some ⟨[], defaultMaxSize⟩) k v = some ⟨[(k, v)], defaultMaxSize⟩ := by
  simp only [setCache, Option.map, cacheSet, List.filter_nil, defaultMaxSize]
  rw [List.take_of_length_le (by simp)]

theorem getCached_hit (k : String) (v : Option Charity) (m : Nat) :
    getCached (some ⟨[(k, v)], m⟩) k = (some v, some ⟨[(k, v)], m⟩) := by
  simp [getCached, cacheGet, List.lookup, List.filter]

/-- C5 counterexample: search results are never cached — two successive
identical `search` calls on a CCNI client with caching enabled invoke
the underlying transport twice, not once (no client's `search` consults
the cache; the cache is only used by the CCEW and CCNI `getCharity`
lookups). -/
theorem ccni_search_not_cached :
    (CCNI.search (fun _ => .ok ⟨1, 20, 0, 0, [], [], none⟩)
        (CCNI.search (fun _ => .ok ⟨1, 20, 0, 0, [], [], none⟩)
          (initState true) "x" 1 {}).2
        "x" 1 {}).2.calls = 2 ∧
    ¬ (CCNI.search (fun _ => .ok ⟨1, 20, 0, 0, [], [], none⟩)
        (CCNI.search (fun _ => .ok ⟨1, 20, 0, 0, [], [], none⟩)
          (initState true) "x" 1 {}).2
        "x" 1 {}).2.calls = 1 := by
  constructor
  · rfl
  · intro h
    rw [show (CCNI.search (fun _ => .ok ⟨1, 20, 0, 0, [], [], none⟩)
        (CCNI.search (fun _ => .ok ⟨1, 20, 0, 0, [], [], none⟩)
          (initState true) "x" 1 {}).2
        "x" 1 {}).2.calls = 2 from rfl] at h
    exact absurd h (by omega)

/-- C5 amended: with caching enabled (default configuration), two
successive identical CCNI `getCharity` lookups whose first resolution
completes (success body or upstream 404) invoke the underlying
transport exactly once and return the same result, and `clearCache()`
followed by a repeat lookup invokes the transport again; a known-absent
id (empty success body or 404) returns null on both of two successive
calls with the upstream invoked once across both, the negative result
being cached under the same key scheme; with caching disabled the
upstream is invoked twice. Search calls are never cached. -/
theorem ccni_getCharity_cache_amended :
    ∀ (upstream : String → Except ClientError (Option CCNIDetails)) (id : String),
      (upstream (CCNI.detailsQuery (CCNI.stripNIC id)) = .error .notFound ∨
        (∃ b, upstream (CCNI.detailsQuery (CCNI.stripNIC id)) = .ok b)) →
      ((CCNI.getCharity upstream
          (CCNI.getCharity upstream (initState true) id).2 id).2.calls = 1 ∧
        (CCNI.getCharity upstream
          (CCNI.getCharity upstream (initState true) id).2 id).1 =
          (CCNI.getCharity upstream (initState true) id).1 ∧
        (CCNI.getCharity upstream
          { cache := clearCacheState (CCNI.getCharity upstream (initState true) id).2.cache,
            calls := (CCNI.getCharity upstream (initState true) id).2.calls } id).2.calls =
          2) ∧
      ((upstream (CCNI.detailsQuery (CCNI.stripNIC id)) = .error .notFound ∨
          upstream (CCNI.detailsQuery (CCNI.stripNIC id)) = .ok none) →
        (CCNI.getCharity upstream (initState true) id).1 = .ok none ∧
        (CCNI.getCharity upstream
          (CCNI.getCharity upstream (initState true) id).2 id).1 = .ok none ∧
        (CCNI.getCharity upstream
          (CCNI.getCharity upstream (initState true) id).2 id).2.calls = 1) ∧
      (CCNI.getCharity upstream
        (CCNI.getCharity upstream (initState false) id).2 id).2.calls = 2 := by
  intro upstream id hcompl
  rcases hcompl with hnf | ⟨b, hok⟩
  · have h1 : CCNI.getCharity upstream (initState true) id =
        (.ok none,
          { cache := some ⟨[(getCacheKey "CCNI" "getCharity" (CCNI.stripNIC id), none)],
              defaultMaxSize⟩,
            calls := 1 }) := by
      unfold CCNI.getCharity
      simp [initState, getCached_empty, hnf, setCache_empty]
    refine ⟨⟨?_, ?_, ?_⟩, ?_, ?_⟩
    · rw [h1]
      unfold CCNI.getCharity
      simp [getCached_hit]
    · rw [h1]
      unfold CCNI.getCharity
      simp [getCached_hit]
    · rw [h1]
      unfold CCNI.getCharity
      simp [clearCacheState, getCached_empty, hnf]
    · intro _
      refine ⟨?_, ?_, ?_⟩
      · rw [h1]
      · rw [h1]
        unfold CCNI.getCharity
        simp [getCached_hit]
      · rw [h1]
        unfold CCNI.getCharity
        simp [getCached_hit]
    · unfold CCNI.getCharity
      simp [initState, getCached, setCache, hnf]
  · cases b with
    | none =>
      have h1 : CCNI.getCharity upstream (initState true) id =
          (.ok none,
            { cache := some ⟨[(getCacheKey "CCNI" "getCharity" (CCNI.stripNIC id), none)],
                defaultMaxSize⟩,
              calls := 1 }) := by
        unfold CCNI.getCharity
        simp [initState, getCached_empty, hok, setCache_empty]
      refine ⟨⟨?_, ?_, ?_⟩, ?_, ?_⟩
      · rw [h1]
        unfold CCNI.getCharity
        simp [getCached_hit]
      · rw [h1]
        unfold CCNI.getCharity
        simp [getCached_hit]
      · rw [h1]
        unfold CCNI.getCharity
        simp [clearCacheState, getCached_empty, hok]
      · intro _
        refine ⟨?_, ?_, ?_⟩
        · rw [h1]
        · rw [h1]
          unfold CCNI.getCharity
          simp [getCached_hit]
        · rw [h1]
          unfold CCNI.getCharity
          simp [getCached_hit]
      · unfold CCNI.getCharity
        simp [initState, getCached, setCache, hok]
    | some d =>
      by_cases hz : d.regCharityNumber = 0
      · have h1 : CCNI.getCharity upstream (initState true) id =
            (.ok none,
              { cache := some ⟨[(getCacheKey "CCNI" "getCharity" (CCNI.stripNIC id), none)],
                  defaultMaxSize⟩,
                calls := 1 }) := by
          unfold CCNI.getCharity
          simp [initState, getCached_empty, hok, hz, setCache_empty]
        refine ⟨⟨?_, ?_, ?_⟩, ?_, ?_⟩
        · rw [h1]
          unfold CCNI.getCharity
          simp [getCached_hit]
        · rw [h1]
          unfold CCNI.getCharity
          simp [getCached_hit]
        · rw [h1]
          unfold CCNI.getCharity
          simp [clearCacheState, getCached_empty, hok, hz]
        · intro habs
          rcases habs with h | h
          · rw [hok] at h
            exact absurd h (by simp)
          · rw [hok] at h
            exact absurd h (by simp)
        · unfold CCNI.getCharity
          simp [initState, getCached, setCache, hok, hz]
      · have h1 : CCNI.getCharity upstream (initState true) id =
            (.ok (some (CCNI.transformDetails d)),
              { cache := some ⟨[(getCacheKey "CCNI" "getCharity" (CCNI.stripNIC id),
                  some (CCNI.transformDetails d))], defaultMaxSize⟩,
                calls := 1 }) := by
          unfold CCNI.getCharity
          simp [initState, getCached_empty, hok, hz, setCache_empty]
        refine ⟨⟨?_, ?_, ?_⟩, ?_, ?_⟩
        · rw [h1]
          unfold CCNI.getCharity
          simp [getCached_hit]
        · rw [h1]
          unfold CCNI.getCharity
          simp [getCached_hit]
        · rw [h1]
          unfold CCNI.getCharity
          simp [clearCacheState, getCached_empty, hok, hz]
        · intro habs
          rcases habs with h | h
          · rw [hok] at h
            exact absurd h (by simp)
          · rw [hok] at h
            exact absurd h (by simp)
        · unfold CCNI.getCharity
          simp [initState, getCached, setCache, hok, hz]

/-- C5 witness: the amended caching behavior evaluated at a concrete
known-absent id against an upstream whose success body is always empty:
null on both successive calls with one transport invocation when caching
is enabled, two invocations when disabled. -/
theorem ccni_getCharity_cache_amended_witness :
    (CCNI.getCharity ccniAbsentUpstream (initState true) "100002").1 = .ok none ∧
    (CCNI.getCharity ccniAbsentUpstream
      (CCNI.getCharity ccniAbsentUpstream (initState true) "100002").2 "100002").1 =
      .ok none ∧
    (CCNI.getCharity ccniAbsentUpstream
      (CCNI.getCharity ccniAbsentUpstream (initState true) "100002").2 "100002").2.calls =
      1 ∧
    (CCNI.getCharity ccniAbsentUpstream
      (CCNI.getCharity ccniAbsentUpstream (initState false) "100002").2 "100002").2.calls =
      2 := by
  have h := ccni_getCharity_cache_amended ccniAbsentUpstream "100002" (Or.inr ⟨none, rfl⟩)
  have habs := h.2.1 (Or.inr rfl)
  exact ⟨habs.1, habs.2.1, habs.2.2, h.2.2⟩

-- A string whose first three characters do not spell a case-insensitive
-- NIC is left unchanged by the prefix strip.
theorem stripNIC_of_not_nicStart (s : String) (h : CCNI.nicStart s = false) :
    CCNI.stripNIC s = s := by
  rcases s with ⟨l⟩
  rcases l with _ | ⟨a, _ | ⟨b, _ | ⟨c, rest⟩⟩⟩
  · rfl
  · rfl
  · rfl
  · simp only [CCNI.nicStart] at h
    simp [CCNI.stripNIC, h]

-- JavaScript toUpperCase distributes over concatenation.
theorem jsToUpper_append (p b : String) :
    jsToUpper (p ++ b) = jsToUpper p ++ jsToUpper b := by
  rcases p with ⟨lp⟩
  rcases b with ⟨lb⟩
  show String.mk ((lp ++ lb).map Char.toUpper) = String.mk (lp.map Char.toUpper ++ lb.map Char.toUpper)
  rw [List.map_append]

/-- C6: identifier normalization is input-form independent. For CCNI:
stripping the canonical prefix is exact (`stripNIC` removes one leading
case-insensitive `NIC` and leaves a bare id unchanged), so `getCharity`
on a prefixed id in any letter case is literally the same function of
the upstream and cache state as on the bare id — the identical lookup is
issued — and every returned record's id is reconstructed from the
response alone as `NIC` plus the registration number. For OSCR: a bare
case-stable id and the same id under any casing of the `SC` prefix
normalize to the same charity number, so `getCharity` issues the same
lookup, and the returned record's id comes from the response's own
charity number. -/
theorem getCharity_id_normalization :
    (∀ (c1 c2 c3 : Char) (b : String),
      c1.toLower = 'n' → c2.toLower = 'i' → c3.toLower = 'c' →
      CCNI.nicStart b = false →
      CCNI.stripNIC ⟨c1 :: c2 :: c3 :: b.data⟩ = b ∧
      CCNI.stripNIC b = b ∧
      (∀ upstream st,
        CCNI.getCharity upstream st ⟨c1 :: c2 :: c3 :: b.data⟩ =
          CCNI.getCharity upstream st b)) ∧
    (∀ d : CCNIDetails,
      (CCNI.transformDetails d).id = "NIC" ++ toString d.regCharityNumber) ∧
    (∀ (p b : String), jsToUpper p = "SC" → jsToUpper b = b →
      jsStartsWith (jsToUpper b) "SC" = false →
      OSCR.scCharityNumber (p ++ b) = OSCR.scCharityNumber b ∧
      (∀ upstream, OSCR.getCharity upstream (p ++ b) = OSCR.getCharity upstream b)) ∧
    (∀ c : OSCRCharity, (OSCR.transformCharity c).id = c.charityNumber) := by
  refine ⟨?_, fun _ => rfl, ?_, fun _ => rfl⟩
  · intro c1 c2 c3 b h1 h2 h3 hb
    have hstrip : CCNI.stripNIC ⟨c1 :: c2 :: c3 :: b.data⟩ = b := by
      have hred : CCNI.stripNIC ⟨c1 :: c2 :: c3 :: b.data⟩ =
          if c1.toLower == 'n' && c2.toLower == 'i' && c3.toLower == 'c' then
            String.mk b.data
          else ⟨c1 :: c2 :: c3 :: b.data⟩ := rfl
      rw [hred, h1, h2, h3]
      cases b
      rfl
    have hbare : CCNI.stripNIC b = b := stripNIC_of_not_nicStart b hb
    refine ⟨hstrip, hbare, ?_⟩
    intro upstream st
    unfold CCNI.getCharity
    rw [hstrip, hbare]
  · intro p b hp hb hbsc
    have hnum : OSCR.scCharityNumber (p ++ b) = OSCR.scCharityNumber b := by
      have hup : jsToUpper (p ++ b) = "SC" ++ b := by
        rw [jsToUpper_append, hp, hb]
      have hpre : jsStartsWith (jsToUpper (p ++ b)) "SC" = true := by
        rw [hup]
        show List.isPrefixOf "SC".data ("SC".data ++ b.data) = true
        rw [List.isPrefixOf_iff_prefix]
        exact List.prefix_append _ _
      have hbarenum : OSCR.scCharityNumber b = "SC" ++ b := by
        unfold OSCR.scCharityNumber
        rw [hbsc]
        rfl
      unfold OSCR.scCharityNumber
      rw [hpre, hbsc, if_pos rfl, if_neg (by simp), hup]
    refine ⟨hnum, ?_⟩
    intro upstream
    unfold OSCR.getCharity
    rw [hnum]

/-- C6 witness: the normalization equalities at the concrete CCNI id
`100002` under the lowercase prefix `nic`, and the concrete OSCR id
`000001` under the lowercase prefix `sc`. -/
theorem getCharity_id_normalization_witness :
    CCNI.stripNIC ⟨'n' :: 'i' :: 'c' :: "100002".data⟩ = "100002" ∧
    CCNI.stripNIC "100002" = "100002" ∧
    OSCR.scCharityNumber ("sc" ++ "000001") = OSCR.scCharityNumber "000001" := by
  have hccni :=
    getCharity_id_normalization.1 'n' 'i' 'c' "100002" (by decide) (by decide) (by decide)
      (by decide)
  have hoscr :=
    getCharity_id_normalization.2.2.1 "sc" "000001" (by decide) (by decide) (by decide)
  exact ⟨hccni.1, hccni.2.1, hoscr.1⟩

end CharitiesUK
